import Mathlib

/-!
Shallow embedding of the Mergington High School activities service
(`src/app.py`, `src/database.py`): the SQLite-backed `ActivityRepository`
becomes a pure state-passing model, the PBKDF2 credential hasher is
parameterized over an abstract PBKDF2-HMAC-SHA256 key-derivation function,
and JWT bearer tokens are modelled symbolically (a well-formed token carries
its payload and the secret it was signed with).
-/

/-- A row of the `activities` table: `id` (primary key), unique `name`,
`description`, `schedule`, `max_participants`. -/
structure Activity where
  id : Nat
  name : String
  description : String
  schedule : String
  max_participants : Nat
deriving DecidableEq

/-- A row of the `users` table; `name`, `role` and `password_hash` are
nullable columns.  Password hashes are byte strings, modelled as `List Char`. -/
structure User where
  id : Nat
  email : String
  name : Option String
  role : Option String
  password_hash : Option (List Char)
deriving DecidableEq

/-- The persistent state behind `ActivityRepository`: the `activities` table,
the `activity_participants` table (rows `(activity_id, email)`, composite
primary key), the `users` table, and the AUTOINCREMENT counter for
`activities.id`. -/
structure DB where
  activities : List Activity
  participants : List (Nat × String)
  users : List User
  nextActivityId : Nat
deriving DecidableEq

/-- Embeds `SELECT id FROM activities WHERE name = ?` with `fetchone()`:
the first row whose name matches (the `UNIQUE` constraint makes it the only
one in well-formed states). -/
def DB.findActivity (db : DB) (activity_name : String) : Option Activity :=
  db.activities.find? (fun act => act.name == activity_name)

/-- The Python exceptions raised by the repository: `KeyError` and
`ValueError` with their message. -/
inductive RepoError where
  | keyError : String → RepoError
  | valueError : String → RepoError
deriving DecidableEq

/-- Embeds `ActivityRepository.signup` (database.py:209-228): look up the activity
by name (`KeyError` if absent), then `INSERT` the `(activity_id, email)` row;
the composite primary key turns a duplicate into `sqlite3.IntegrityError`,
re-raised as `ValueError`.  On an exception the transaction rolls back, so the
state component is returned unchanged. -/
def ActivityRepository.signup (db : DB) (activity_name email : String) :
    DB × Except RepoError Unit :=
  match db.findActivity activity_name with
  | none => (db, .error (.keyError "Activity not found"))
  | some act =>
    if (act.id, email) ∈ db.participants then
      (db, .error (.valueError "Student is already signed up"))
    else
      ({ db with participants := db.participants ++ [(act.id, email)] }, .ok ())

/-- Embeds `ActivityRepository.unregister` (database.py:230-248): look up the
activity by name (`KeyError` if absent), `DELETE` the matching rows, and
raise `ValueError` when `rowcount = 0` (the pair was absent, the transaction
rolls back). -/
def ActivityRepository.unregister (db : DB) (activity_name email : String) :
    DB × Except RepoError Unit :=
  match db.findActivity activity_name with
  | none => (db, .error (.keyError "Activity not found"))
  | some act =>
    if (act.id, email) ∈ db.participants then
      ({ db with
          participants := db.participants.filter (fun p => p ≠ (act.id, email)) },
        .ok ())
    else
      (db, .error (.valueError "Student is not signed up for this activity"))

/-- Embeds `SELECT ... FROM users WHERE email = ?` with `fetchone()`
(database.py:266-287). -/
def ActivityRepository.get_user_by_email (db : DB) (email : String) : Option User :=
  db.users.find? (fun u => u.email == email)

/-- One value of the `get_activities` result map (description, schedule,
max_participants, participants). -/
structure ActivityOut where
  description : String
  schedule : String
  max_participants : Nat
  participants : List String
deriving DecidableEq

/-- The participant emails of one activity id, in SQL `ORDER BY email` order
(SQLite BINARY collation on UTF-8 text is code-point order, Lean's `≤` on
`String`). -/
def DB.participantsSorted (db : DB) (activity_id : Nat) : List String :=
  List.insertionSort (fun a b => a ≤ b)
    ((db.participants.filter (fun p => p.1 == activity_id)).map Prod.snd)

/-- Embeds `ActivityRepository.get_activities` (database.py:176-207): all activities
`ORDER BY name`, each with its participants `ORDER BY email`; the Python dict
keyed by name preserves that iteration order, so the result is an ordered
association list. -/
def ActivityRepository.get_activities (db : DB) : List (String × ActivityOut) :=
  (List.insertionSort (fun a b => a.name ≤ b.name) db.activities).map
    (fun act =>
      (act.name,
        ⟨act.description, act.schedule, act.max_participants,
          db.participantsSorted act.id⟩))

/-- One entry of `DEFAULT_ACTIVITIES` (database.py:6-61). -/
structure SeedActivity where
  name : String
  description : String
  schedule : String
  max_participants : Nat
  participants : List String
deriving DecidableEq

/-- The fixed `DEFAULT_ACTIVITIES` dict of database.py, in insertion
(= iteration) order. -/
def DEFAULT_ACTIVITIES : List SeedActivity :=
  [⟨"Chess Club", "Learn strategies and compete in chess tournaments",
      "Fridays, 3:30 PM - 5:00 PM", 12,
      ["michael@mergington.edu", "daniel@mergington.edu"]⟩,
    ⟨"Programming Class", "Learn programming fundamentals and build software projects",
      "Tuesdays and Thursdays, 3:30 PM - 4:30 PM", 20,
      ["emma@mergington.edu", "sophia@mergington.edu"]⟩,
    ⟨"Gym Class", "Physical education and sports activities",
      "Mondays, Wednesdays, Fridays, 2:00 PM - 3:00 PM", 30,
      ["john@mergington.edu", "olivia@mergington.edu"]⟩,
    ⟨"Soccer Team", "Join the school soccer team and compete in matches",
      "Tuesdays and Thursdays, 4:00 PM - 5:30 PM", 22,
      ["liam@mergington.edu", "noah@mergington.edu"]⟩,
    ⟨"Basketball Team", "Practice and play basketball with the school team",
      "Wednesdays and Fridays, 3:30 PM - 5:00 PM", 15,
      ["ava@mergington.edu", "mia@mergington.edu"]⟩,
    ⟨"Art Club", "Explore your creativity through painting and drawing",
      "Thursdays, 3:30 PM - 5:00 PM", 15,
      ["amelia@mergington.edu", "harper@mergington.edu"]⟩,
    ⟨"Drama Club", "Act, direct, and produce plays and performances",
      "Mondays and Wednesdays, 4:00 PM - 5:30 PM", 20,
      ["ella@mergington.edu", "scarlett@mergington.edu"]⟩,
    ⟨"Math Club", "Solve challenging problems and participate in math competitions",
      "Tuesdays, 3:30 PM - 4:30 PM", 10,
      ["james@mergington.edu", "benjamin@mergington.edu"]⟩,
    ⟨"Debate Team", "Develop public speaking and argumentation skills",
      "Fridays, 4:00 PM - 5:30 PM", 12,
      ["charlotte@mergington.edu", "henry@mergington.edu"]⟩]

/-- One loop iteration of `seed_default_data`: `INSERT` the activity (its id
is the AUTOINCREMENT `lastrowid`) and then each of its seed participants. -/
def seedInsert (db : DB) (entry : SeedActivity) : DB :=
  { db with
    activities := db.activities ++
      [⟨db.nextActivityId, entry.name, entry.description, entry.schedule,
          entry.max_participants⟩],
    participants := db.participants ++
      entry.participants.map (fun e => (db.nextActivityId, e)),
    nextActivityId := db.nextActivityId + 1 }

/-- Embeds `ActivityRepository.seed_default_data` (database.py:139-174):
`SELECT COUNT(1) FROM activities`; if the count is positive, return without
touching the store, otherwise insert every `DEFAULT_ACTIVITIES` entry with
its initial participants. -/
def ActivityRepository.seed_default_data (db : DB) : DB :=
  if db.activities.length > 0 then db
  else DEFAULT_ACTIVITIES.foldl seedInsert db

/-- The sixteen lowercase hex digits, in value order (Python `bytes.hex()`
uses lowercase). -/
def hexDigits : List Char := "0123456789abcdef".toList

/-- The hex digit of a nibble value. -/
def hexOfNibble (n : Nat) : Char := hexDigits.getD n '0'

/-- The two hex digits of one byte. -/
def hexOfByte (b : Nat) : List Char := [hexOfNibble (b / 16 % 16), hexOfNibble (b % 16)]

/-- Python `bytes.hex()`: the concatenated hex digits of each byte. -/
def hexEncode (bytes : List Nat) : List Char := (bytes.map hexOfByte).flatten

/-- Holds when `c` is one of the sixteen lowercase hex digits (every character of a
`secrets.token_hex` salt is). -/
def isHexChar (c : Char) : Bool := c ∈ hexDigits

/-- Every character of `s` is a lowercase hex digit. -/
def isHexStr (s : List Char) : Bool := s.all isHexChar

/-- The iteration count hard-coded in `hash_password`. -/
def PBKDF2_ITERATIONS : Nat := 100000

/-- Embeds `hash_password` (app.py:64-72), parameterized over the library function
`hashlib.pbkdf2_hmac("sha256", password, salt, 100000)` (`pbkdf2` maps
password bytes, salt bytes and an iteration count to derived-key bytes) and
over the random draw `secrets.token_hex(16)` (`fresh_salt`).  Python's
`salt or secrets.token_hex(16)` treats both `None` and the empty string as
absent.  Output: `effective_salt + "$" + derivedKey.hex()`. -/
def hash_password (pbkdf2 : List Char → List Char → Nat → List Nat)
    (fresh_salt : List Char) (password : List Char) (salt : Option (List Char)) :
    List Char :=
  let effective_salt := match salt with
    | none => fresh_salt
    | some s => if s = [] then fresh_salt else s
  effective_salt ++ '$' :: hexEncode (pbkdf2 password effective_salt PBKDF2_ITERATIONS)

/-- Python `s.split(sep, 1)` for a one-character separator: the part before
the first occurrence and the part after it (the whole string and `[]` when
the separator is absent, matching how `verify_password` only calls it after
checking membership). -/
def splitOnFirst (c : Char) : List Char → List Char × List Char
  | [] => ([], [])
  | x :: xs =>
    if x = c then ([], xs)
    else
      let r := splitOnFirst c xs
      (x :: r.1, r.2)

/-- Embeds `verify_password` (app.py:75-80): return `false` when no `"$"` occurs in
the stored record; otherwise split on the first `"$"`, recompute
`hash_password(password, salt)`, take its derived-key part and compare with
`hmac.compare_digest` (functionally: equality). -/
def verify_password (pbkdf2 : List Char → List Char → Nat → List Nat)
    (fresh_salt : List Char) (password stored_hash : List Char) : Bool :=
  if '$' ∈ stored_hash then
    let parts := splitOnFirst '$' stored_hash
    let computed :=
      (splitOnFirst '$' (hash_password pbkdf2 fresh_salt password (some parts.1))).2
    parts.2 == computed
  else false

/-- A decoded JWT payload: the nullable `sub` claim and the `exp` claim
(Unix seconds). -/
structure JwtPayload where
  sub : Option String
  exp : Nat
deriving DecidableEq

/-- Symbolic model of a JWT bearer token: a well-formed token carries its
payload and the secret it was signed with (HS256 signatures are unforgeable,
so verification against a secret succeeds exactly for tokens signed with that
secret); everything else is `malformed`. -/
inductive Token where
  | signed (payload : JwtPayload) (secret : String)
  | malformed
deriving DecidableEq

/-- Mirrors `JWT_EXPIRATION_MINUTES` (app.py:31). -/
def JWT_EXPIRATION_MINUTES : Nat := 60

/-- Embeds `create_access_token` (app.py:83-89): sign the payload with `sub`
set to the email and `exp` set to now plus 60 minutes, with the process
secret. -/
def create_access_token (secret : String) (now : Nat) (email : String) : Token :=
  .signed ⟨some email, now + JWT_EXPIRATION_MINUTES * 60⟩ secret

/-- Embeds `jwt.decode(token, secret, algorithms=["HS256"])` at time `now`: `none`
models a raised `PyJWTError` — a malformed token, a signature made with a
different secret, or an expired token (PyJWT rejects when `exp <= now`, i.e.
the token is live only while `now < exp`). -/
def jwt_decode (token : Token) (secret : String) (now : Nat) : Option JwtPayload :=
  match token with
  | .malformed => none
  | .signed payload sig_secret =>
    if sig_secret = secret then
      if payload.exp ≤ now then none else some payload
    else none

/-- The two 401 responses of `get_current_user_email`. -/
inductive AuthError where
  | invalidOrExpiredToken
  | invalidTokenPayload
deriving DecidableEq

/-- Embeds `get_current_user_email` (app.py:92-101): decode the bearer token (any
`PyJWTError` becomes 401 "Invalid or expired token"), then read
`payload.get("sub")`; Python `if not user_email` rejects both a missing and
an empty subject with 401 "Invalid token payload". -/
def get_current_user_email (secret : String) (now : Nat) (token : Token) :
    Except AuthError String :=
  match jwt_decode token secret now with
  | none => .error .invalidOrExpiredToken
  | some payload =>
    match payload.sub with
    | none => .error .invalidTokenPayload
    | some e => if e = "" then .error .invalidTokenPayload else .ok e

/-- An HTTP error response: status code and detail message. -/
structure HttpError where
  status : Nat
  detail : String
deriving DecidableEq

/-- The body of a successful `/auth/login` response. -/
structure LoginResponse where
  access_token : Token
  token_type : String
  expires_in : Nat
deriving DecidableEq

/-- The `login` endpoint (app.py:116-131): look the user up by email; if the
user is absent or `password_hash` is null/empty (Python `not
user.get("password_hash")`), or the password fails verification, answer 401
"Invalid email or password"; otherwise issue a token for the stored
`user["email"]`. -/
def login (pbkdf2 : List Char → List Char → Nat → List Nat)
    (fresh_salt : List Char) (secret : String) (now : Nat)
    (db : DB) (email : String) (password : List Char) :
    Except HttpError LoginResponse :=
  match ActivityRepository.get_user_by_email db email with
  | none => .error ⟨401, "Invalid email or password"⟩
  | some user =>
    match user.password_hash with
    | none => .error ⟨401, "Invalid email or password"⟩
    | some h =>
      if h = [] then .error ⟨401, "Invalid email or password"⟩
      else if verify_password pbkdf2 fresh_salt password h then
        .ok ⟨create_access_token secret now user.email, "bearer",
          JWT_EXPIRATION_MINUTES * 60⟩
      else .error ⟨401, "Invalid email or password"⟩

/-- The `signup_for_activity` endpoint (app.py:134-150), after bearer-token
authentication has produced `current_user_email`: 403 unless the requested
email is the authenticated one, then delegate to the repository, mapping
`KeyError` to 404 and `ValueError` to 400. -/
def signup_for_activity (db : DB) (activity_name email current_user_email : String) :
    DB × Except HttpError String :=
  if current_user_email ≠ email then
    (db, .error ⟨403, "You can only register your own email"⟩)
  else
    match ActivityRepository.signup db activity_name email with
    | (db2, .ok _) =>
      (db2, .ok ("Signed up " ++ email ++ " for " ++ activity_name))
    | (db2, .error (.keyError _)) => (db2, .error ⟨404, "Activity not found"⟩)
    | (db2, .error (.valueError _)) =>
      (db2, .error ⟨400, "Student is already signed up"⟩)

/-- The `unregister_from_activity` endpoint (app.py:153-169): 403 unless the
requested email is the authenticated one, then delegate to the repository,
mapping `KeyError` to 404 and `ValueError` to 400. -/
def unregister_from_activity (db : DB) (activity_name email current_user_email : String) :
    DB × Except HttpError String :=
  if current_user_email ≠ email then
    (db, .error ⟨403, "You can only unregister your own email"⟩)
  else
    match ActivityRepository.unregister db activity_name email with
    | (db2, .ok _) =>
      (db2, .ok ("Unregistered " ++ email ++ " from " ++ activity_name))
    | (db2, .error (.keyError _)) => (db2, .error ⟨404, "Activity not found"⟩)
    | (db2, .error (.valueError _)) =>
      (db2, .error ⟨400, "Student is not signed up for this activity"⟩)

/-- Some activity named `a` exists in the store. -/
def activityExists (db : DB) (a : String) : Prop :=
  ∃ act ∈ db.activities, act.name = a

/-- The pair `(a, e)` is in the membership relation: some activity named `a`
has the row `(its id, e)` in `activity_participants`. -/
def enrolled (db : DB) (a e : String) : Prop :=
  ∃ act ∈ db.activities, act.name = a ∧ (act.id, e) ∈ db.participants

/-- The participant list of the activity named `a`, in table row order
(empty when no such activity exists). -/
def DB.participantList (db : DB) (a : String) : List String :=
  match db.findActivity a with
  | none => []
  | some act => (db.participants.filter (fun p => p.1 == act.id)).map Prod.snd

instance (db : DB) (a : String) : Decidable (activityExists db a) := by
  unfold activityExists; infer_instance

instance (db : DB) (a e : String) : Decidable (enrolled db a e) := by
  unfold enrolled; infer_instance

/-- C6: for every authenticated email and requested email that differ, both
`signup_for_activity` and `unregister_from_activity` fail with 403 Forbidden
and leave the store unchanged, regardless of whether the activity exists or
the pair is enrolled. -/
theorem C6_forbidden_no_change (db : DB) (a e auth : String) (h : auth ≠ e) :
    signup_for_activity db a e auth =
      (db, .error ⟨403, "You can only register your own email"⟩) ∧
    unregister_from_activity db a e auth =
      (db, .error ⟨403, "You can only unregister your own email"⟩) := by
  constructor <;> simp [signup_for_activity, unregister_from_activity, h]

/-- Witness for C6 at a concrete store and distinct emails. -/
theorem C6_forbidden_no_change_witness :
    signup_for_activity ⟨[], [], [], 1⟩ "Chess Club" "dave@x.edu" "carol@x.edu" =
      (⟨[], [], [], 1⟩, .error ⟨403, "You can only register your own email"⟩) ∧
    unregister_from_activity ⟨[], [], [], 1⟩ "Chess Club" "dave@x.edu" "carol@x.edu" =
      (⟨[], [], [], 1⟩, .error ⟨403, "You can only unregister your own email"⟩) :=
  C6_forbidden_no_change ⟨[], [], [], 1⟩ "Chess Club" "dave@x.edu" "carol@x.edu"
    (by decide)

/-- C10: a signature-valid, unexpired token whose `sub` claim is the empty
string is rejected with the same invalid-payload error as one whose `sub`
claim is absent, and a token that verifies never yields the empty email. -/
theorem C10_empty_subject_rejected (secret : String) (now expiry : Nat)
    (h : now < expiry) :
    get_current_user_email secret now (.signed ⟨some "", expiry⟩ secret) =
      .error .invalidTokenPayload ∧
    get_current_user_email secret now (.signed ⟨none, expiry⟩ secret) =
      .error .invalidTokenPayload ∧
    ∀ (tok : Token) (e : String),
      get_current_user_email secret now tok = .ok e → e ≠ "" := by
  refine ⟨?_, ?_, ?_⟩
  · simp [get_current_user_email, jwt_decode, Nat.not_le.mpr h]
  · simp [get_current_user_email, jwt_decode, Nat.not_le.mpr h]
  · intro tok e hok
    cases hdec : jwt_decode tok secret now with
    | none => simp [get_current_user_email, hdec] at hok
    | some payload =>
      cases hsub : payload.sub with
      | none => simp [get_current_user_email, hdec, hsub] at hok
      | some s =>
        by_cases hs : s = ""
        · simp [get_current_user_email, hdec, hsub, hs] at hok
        · simp [get_current_user_email, hdec, hsub, hs] at hok
          exact hok ▸ hs

/-- Witness for C10 at a concrete secret and clock. -/
theorem C10_empty_subject_rejected_witness :
    get_current_user_email "s0" 10 (.signed ⟨some "", 20⟩ "s0") =
      .error .invalidTokenPayload ∧
    get_current_user_email "s0" 10 (.signed ⟨none, 20⟩ "s0") =
      .error .invalidTokenPayload :=
  ⟨(C10_empty_subject_rejected "s0" 10 20 (by decide)).1,
    (C10_empty_subject_rejected "s0" 10 20 (by decide)).2.1⟩

/-- Counterexample to C3 as stated: for the empty email, verifying a freshly
issued, unexpired token does not return that email — `payload.get("sub")` is
falsy in Python for the empty string, so verification answers 401
"Invalid token payload" instead. -/
theorem C3_empty_email_counterexample :
    get_current_user_email "secret0" 5 (create_access_token "secret0" 0 "") ≠
      Except.ok "" := by
  simp [get_current_user_email, jwt_decode, create_access_token,
    JWT_EXPIRATION_MINUTES]

/-- C3 (amended to nonempty emails): a token issued for a nonempty email and
verified with the same secret before its expiry (issue time plus 60 minutes)
yields that email; verification at or after expiry, of a malformed token, or
of a token signed with a different secret fails with the invalid-or-expired
error. -/
theorem C3_token_lifecycle (secret other_secret email : String) (t now : Nat) :
    (email ≠ "" → now < t + JWT_EXPIRATION_MINUTES * 60 →
      get_current_user_email secret now (create_access_token secret t email) =
        .ok email) ∧
    (t + JWT_EXPIRATION_MINUTES * 60 ≤ now →
      get_current_user_email secret now (create_access_token secret t email) =
        .error .invalidOrExpiredToken) ∧
    (get_current_user_email secret now .malformed =
      .error .invalidOrExpiredToken) ∧
    (other_secret ≠ secret →
      get_current_user_email secret now (create_access_token other_secret t email) =
        .error .invalidOrExpiredToken) := by
  refine ⟨fun h1 h2 => ?_, fun h => ?_, ?_, fun h => ?_⟩
  · simp [get_current_user_email, jwt_decode, create_access_token,
      Nat.not_le.mpr h2, h1]
  · simp [get_current_user_email, jwt_decode, create_access_token, h]
  · simp [get_current_user_email, jwt_decode]
  · simp [get_current_user_email, jwt_decode, create_access_token, h]

/-- Witness for C3 at concrete secrets, email and clocks. -/
theorem C3_token_lifecycle_witness :
    (get_current_user_email "s0" 100 (create_access_token "s0" 0 "alice@x.edu") =
      .ok "alice@x.edu") ∧
    (get_current_user_email "s0" 3600 (create_access_token "s0" 0 "alice@x.edu") =
      .error .invalidOrExpiredToken) ∧
    (get_current_user_email "s0" 100 (create_access_token "s1" 0 "alice@x.edu") =
      .error .invalidOrExpiredToken) :=
  ⟨(C3_token_lifecycle "s0" "s1" "alice@x.edu" 0 100).1 (by decide) (by decide),
    (C3_token_lifecycle "s0" "s1" "alice@x.edu" 0 3600).2.1 (by decide),
    (C3_token_lifecycle "s0" "s1" "alice@x.edu" 0 100).2.2.2 (by decide)⟩

/-- C7: signup never enforces capacity — when the activity exists and the
email is not yet enrolled, signup succeeds even when the activity already has
at least `max_participants` participants. -/
theorem C7_capacity_not_enforced (db : DB) (a e : String) (act : Activity)
    (hfind : db.findActivity a = some act)
    (hfull : act.max_participants ≤ (db.participantList a).length)
    (hnot : ¬ enrolled db a e) :
    (ActivityRepository.signup db a e).2 = .ok () := by
  have hfind' : db.activities.find? (fun x => x.name == a) = some act := hfind
  have hmem : act ∈ db.activities := List.mem_of_find?_eq_some hfind'
  have hname : act.name = a := by simpa using List.find?_some hfind'
  have hpair : (act.id, e) ∉ db.participants := fun hp =>
    hnot ⟨act, hmem, hname, hp⟩
  simp [ActivityRepository.signup, hfind, hpair]

/-- Witness for C7: a one-seat activity already holding one participant still
accepts a second signup. -/
theorem C7_capacity_not_enforced_witness :
    (ActivityRepository.signup
      ⟨[⟨1, "Chess Club", "d", "s", 1⟩], [(1, "a@x.edu")], [], 2⟩
      "Chess Club" "b@x.edu").2 = .ok () :=
  C7_capacity_not_enforced
    ⟨[⟨1, "Chess Club", "d", "s", 1⟩], [(1, "a@x.edu")], [], 2⟩
    "Chess Club" "b@x.edu" ⟨1, "Chess Club", "d", "s", 1⟩
    (by decide) (by decide) (by decide)

/-- C4: login answers the same 401 "Invalid email or password" error for an
unknown email, for an account without a credential hash (null or empty
column), and for a password that fails verification — the three failures are
indistinguishable to the caller; on success it returns a token issued for the
account's stored email. -/
theorem C4_login_uniform_error (pbkdf2 : List Char → List Char → Nat → List Nat)
    (fresh_salt : List Char) (secret : String) (now : Nat)
    (db : DB) (e : String) (p : List Char) :
    (ActivityRepository.get_user_by_email db e = none →
      login pbkdf2 fresh_salt secret now db e p =
        .error ⟨401, "Invalid email or password"⟩) ∧
    (∀ u, ActivityRepository.get_user_by_email db e = some u →
      (u.password_hash = none ∨ u.password_hash = some []) →
      login pbkdf2 fresh_salt secret now db e p =
        .error ⟨401, "Invalid email or password"⟩) ∧
    (∀ u h, ActivityRepository.get_user_by_email db e = some u →
      u.password_hash = some h → h ≠ [] →
      verify_password pbkdf2 fresh_salt p h = false →
      login pbkdf2 fresh_salt secret now db e p =
        .error ⟨401, "Invalid email or password"⟩) ∧
    (∀ u h, ActivityRepository.get_user_by_email db e = some u →
      u.password_hash = some h → h ≠ [] →
      verify_password pbkdf2 fresh_salt p h = true →
      login pbkdf2 fresh_salt secret now db e p =
        .ok ⟨create_access_token secret now u.email, "bearer",
          JWT_EXPIRATION_MINUTES * 60⟩) := by
  refine ⟨fun hu => ?_, fun u hu hh => ?_, fun u h hu hh hne hv => ?_,
    fun u h hu hh hne hv => ?_⟩
  · simp [login, hu]
  · rcases hh with hh | hh <;> simp [login, hu, hh]
  · simp [login, hu, hh, hne, hv]
  · simp [login, hu, hh, hne, hv]

/-- A concrete stand-in key-derivation function used to instantiate the
abstract PBKDF2 parameter in witnesses. -/
def kdfSample (password salt : List Char) (iterations : Nat) : List Nat :=
  [(password.foldl (fun acc c => acc + c.toNat) 0 + salt.length + iterations) % 256]

/-- A concrete user store for the login witness: one account whose stored
record is `"ab$1a"`, i.e. salt `"ab"` with the `kdfSample`-derived key of the
password `"x"`, and one account with a null hash. -/
def dbLoginSample : DB :=
  ⟨[], [],
    [⟨1, "u@x.edu", none, some "student", some ['a', 'b', '$', '1', 'a']⟩,
      ⟨2, "nohash@x.edu", none, some "student", none⟩],
    1⟩

/-- Witness for C4: all four login outcomes at concrete inputs. -/
theorem C4_login_uniform_error_witness :
    (login kdfSample [] "s0" 0 dbLoginSample "ghost@x.edu" ['x'] =
      .error ⟨401, "Invalid email or password"⟩) ∧
    (login kdfSample [] "s0" 0 dbLoginSample "nohash@x.edu" ['x'] =
      .error ⟨401, "Invalid email or password"⟩) ∧
    (login kdfSample [] "s0" 0 dbLoginSample "u@x.edu" ['y'] =
      .error ⟨401, "Invalid email or password"⟩) ∧
    (login kdfSample [] "s0" 0 dbLoginSample "u@x.edu" ['x'] =
      .ok ⟨create_access_token "s0" 0 "u@x.edu", "bearer",
        JWT_EXPIRATION_MINUTES * 60⟩) :=
  ⟨(C4_login_uniform_error kdfSample [] "s0" 0 dbLoginSample "ghost@x.edu" ['x']).1
      (by decide),
    (C4_login_uniform_error kdfSample [] "s0" 0 dbLoginSample "nohash@x.edu" ['x']).2.1
      ⟨2, "nohash@x.edu", none, some "student", none⟩ (by decide) (Or.inl (by decide)),
    (C4_login_uniform_error kdfSample [] "s0" 0 dbLoginSample "u@x.edu" ['y']).2.2.1
      ⟨1, "u@x.edu", none, some "student", some ['a', 'b', '$', '1', 'a']⟩
      ['a', 'b', '$', '1', 'a'] (by decide) (by decide) (by decide) (by decide),
    (C4_login_uniform_error kdfSample [] "s0" 0 dbLoginSample "u@x.edu" ['x']).2.2.2
      ⟨1, "u@x.edu", none, some "student", some ['a', 'b', '$', '1', 'a']⟩
      ['a', 'b', '$', '1', 'a'] (by decide) (by decide) (by decide) (by decide)⟩

/-- Hex digits of nibble values are hex digits. -/
theorem hexOfNibble_mem (n : Nat) (h : n < 16) : hexOfNibble n ∈ hexDigits := by
  interval_cases n <;> decide

/-- The dollar separator never occurs in a hex-encoded key. -/
theorem dollar_not_mem_hexEncode (bytes : List Nat) : '$' ∉ hexEncode bytes := by
  intro hmem
  unfold hexEncode at hmem
  rw [List.mem_flatten] at hmem
  obtain ⟨l, hl, hcl⟩ := hmem
  rw [List.mem_map] at hl
  obtain ⟨b, _, rfl⟩ := hl
  have hnd : '$' ∉ hexDigits := by decide
  rcases List.mem_cons.mp hcl with h1 | h1
  · exact hnd (by rw [h1]; exact hexOfNibble_mem _ (Nat.mod_lt _ (by decide)))
  · rw [List.mem_singleton] at h1
    exact hnd (by rw [h1]; exact hexOfNibble_mem _ (Nat.mod_lt _ (by decide)))

/-- The dollar separator never occurs in a hex salt (as drawn by
`secrets.token_hex`). -/
theorem dollar_not_mem_of_isHexStr (s : List Char) (h : isHexStr s = true) :
    '$' ∉ s := by
  intro hmem
  have h2 : isHexChar '$' = true := List.all_eq_true.mp h _ hmem
  exact absurd h2 (by decide)

/-- Lemma: `splitOnFirst` inverts appending a separator-free prefix. -/
theorem splitOnFirst_append_cons (c : Char) (l r : List Char) (hl : c ∉ l) :
    splitOnFirst c (l ++ c :: r) = (l, r) := by
  induction l with
  | nil => simp [splitOnFirst]
  | cons x xs ih =>
    have hx : ¬ x = c := fun h => hl (h ▸ List.mem_cons_self x xs)
    have ih2 := ih (fun h => hl (List.mem_cons_of_mem _ h))
    simp [splitOnFirst, hx, ih2]

/-- C2: for every key-derivation function, password and nonempty hex salt
(the shape `secrets.token_hex(16)` draws), the hash record is
`salt ++ "$" ++ hex(pbkdf2(password, salt, 100000))`, hashing does not depend
on the random draw (determinism given the same salt and password), and
verifying the password against its own hash record returns true. -/
theorem C2_hash_verify_roundtrip (pbkdf2 : List Char → List Char → Nat → List Nat)
    (fresh fresh2 p s : List Char) (hhex : isHexStr s = true) (hne : s ≠ []) :
    hash_password pbkdf2 fresh p (some s) =
      s ++ '$' :: hexEncode (pbkdf2 p s PBKDF2_ITERATIONS) ∧
    (∀ f1 f2, hash_password pbkdf2 f1 p (some s) =
      hash_password pbkdf2 f2 p (some s)) ∧
    verify_password pbkdf2 fresh2 p (hash_password pbkdf2 fresh p (some s)) =
      true := by
  have hds : '$' ∉ s := dollar_not_mem_of_isHexStr s hhex
  have hform : ∀ f, hash_password pbkdf2 f p (some s) =
      s ++ '$' :: hexEncode (pbkdf2 p s PBKDF2_ITERATIONS) := fun f => by
    simp [hash_password, hne]
  refine ⟨hform fresh, fun f1 f2 => (hform f1).trans (hform f2).symm, ?_⟩
  rw [hform fresh]
  have hdollar : '$' ∈ s ++ '$' :: hexEncode (pbkdf2 p s PBKDF2_ITERATIONS) := by
    simp
  rw [verify_password, if_pos hdollar]
  simp only [hform fresh2, splitOnFirst_append_cons '$' s _ hds,
    beq_self_eq_true]

/-- Witness for C2 at a concrete key-derivation function, password and
salt. -/
theorem C2_hash_verify_roundtrip_witness :
    hash_password kdfSample [] ['x'] (some ['a', 'b']) =
      ['a', 'b'] ++ '$' :: hexEncode (kdfSample ['x'] ['a', 'b'] PBKDF2_ITERATIONS) ∧
    verify_password kdfSample [] ['x']
      (hash_password kdfSample [] ['x'] (some ['a', 'b'])) = true :=
  ⟨(C2_hash_verify_roundtrip kdfSample [] [] ['x'] ['a', 'b']
      (by decide) (by decide)).1,
    (C2_hash_verify_roundtrip kdfSample [] [] ['x'] ['a', 'b']
      (by decide) (by decide)).2.2⟩

/-- When an activity of the given name exists, the repository lookup returns
one such row (the first, hence the unique one under the name constraint). -/
theorem findActivity_of_exists (db : DB) (a : String) (hex : activityExists db a) :
    ∃ act, db.findActivity a = some act ∧ act ∈ db.activities ∧ act.name = a := by
  obtain ⟨act0, hmem0, hname0⟩ := hex
  cases hf : db.activities.find? (fun x => x.name == a) with
  | none =>
    have h1 := List.find?_eq_none.mp hf act0 hmem0
    rw [hname0] at h1
    simp at h1
  | some act =>
    exact ⟨act, hf, List.mem_of_find?_eq_some hf, by simpa using List.find?_some hf⟩

/-- C1: signup fails with the not-found error when no activity of that name
exists; fails with the already-signed-up error, leaving the store unchanged,
when the pair is already in the membership relation; and otherwise succeeds,
after which the email appears exactly once in the activity's participant
list.  The hypothesis is the `UNIQUE` constraint on activity names. -/
theorem C1_signup_cases (db : DB) (a e : String)
    (hNames : (db.activities.map Activity.name).Nodup) :
    (¬ activityExists db a →
      ActivityRepository.signup db a e =
        (db, .error (.keyError "Activity not found"))) ∧
    (activityExists db a → enrolled db a e →
      ActivityRepository.signup db a e =
        (db, .error (.valueError "Student is already signed up"))) ∧
    (activityExists db a → ¬ enrolled db a e →
      (ActivityRepository.signup db a e).2 = .ok () ∧
      ((ActivityRepository.signup db a e).1.participantList a).count e = 1) := by
  refine ⟨fun hnone => ?_, fun hex hen => ?_, fun hex hnen => ?_⟩
  · have hfind : db.activities.find? (fun x => x.name == a) = none :=
      List.find?_eq_none.mpr (fun x hx => by
        simp only [beq_iff_eq]
        exact fun h => hnone ⟨x, hx, h⟩)
    simp [ActivityRepository.signup, DB.findActivity, hfind]
  · obtain ⟨act, hfind, hmem, hname⟩ := findActivity_of_exists db a hex
    obtain ⟨act2, hmem2, hname2, hpair2⟩ := hen
    have heq : act = act2 :=
      List.inj_on_of_nodup_map hNames hmem hmem2 (by rw [hname, hname2])
    rw [← heq] at hpair2
    simp [ActivityRepository.signup, hfind, hpair2]
  · obtain ⟨act, hfind, hmem, hname⟩ := findActivity_of_exists db a hex
    have hpair : (act.id, e) ∉ db.participants := fun hp =>
      hnen ⟨act, hmem, hname, hp⟩
    have hstate : (ActivityRepository.signup db a e).1 =
        { db with participants := db.participants ++ [(act.id, e)] } := by
      simp [ActivityRepository.signup, hfind, hpair]
    refine ⟨by simp [ActivityRepository.signup, hfind, hpair], ?_⟩
    rw [hstate]
    have hfind2 :
        ({ db with participants := db.participants ++ [(act.id, e)] } : DB).findActivity a =
          some act := hfind
    simp only [DB.participantList, hfind2]
    rw [List.filter_append, List.map_append, List.count_append]
    have hz : ((db.participants.filter (fun p => p.1 == act.id)).map Prod.snd).count e
        = 0 := by
      rw [List.count_eq_zero]
      intro hmm
      rw [List.mem_map] at hmm
      obtain ⟨pr, hprf, hsnd⟩ := hmm
      rw [List.mem_filter] at hprf
      obtain ⟨hpr1, hpr2⟩ := hprf
      have hpr : pr = (act.id, e) := by
        obtain ⟨i, e2⟩ := pr
        simp only [beq_iff_eq] at hpr2
        simp only at hsnd
        rw [hpr2, hsnd]
      exact hpair (hpr ▸ hpr1)
    rw [hz]
    simp

/-- A concrete store for the C1 and C5 witnesses: one activity, one
enrollment. -/
def dbChess : DB :=
  ⟨[⟨1, "Chess Club", "desc", "sched", 12⟩], [(1, "bob@x.edu")], [], 2⟩

/-- Witness for C1: at the concrete store, all three signup outcomes. -/
theorem C1_signup_cases_witness :
    ActivityRepository.signup dbChess "Art Club" "bob@x.edu" =
      (dbChess, .error (.keyError "Activity not found")) ∧
    ActivityRepository.signup dbChess "Chess Club" "bob@x.edu" =
      (dbChess, .error (.valueError "Student is already signed up")) ∧
    (ActivityRepository.signup dbChess "Chess Club" "new@x.edu").2 = .ok () ∧
    ((ActivityRepository.signup dbChess "Chess Club" "new@x.edu").1.participantList
      "Chess Club").count "new@x.edu" = 1 :=
  ⟨(C1_signup_cases dbChess "Art Club" "bob@x.edu" (by decide)).1 (by decide),
    (C1_signup_cases dbChess "Chess Club" "bob@x.edu" (by decide)).2.1
      (by decide) (by decide),
    (C1_signup_cases dbChess "Chess Club" "new@x.edu" (by decide)).2.2
      (by decide) (by decide)⟩

/-- Under the composite primary key (no duplicate membership rows), deleting
the rows equal to one present pair removes exactly one row. -/
theorem filter_ne_length_of_nodup (l : List (Nat × String)) (x : Nat × String)
    (hl : l.Nodup) (hx : x ∈ l) :
    (l.filter (fun p => p ≠ x)).length + 1 = l.length := by
  have hfe : l.filter (fun p => p ≠ x) = l.erase x := by
    rw [List.Nodup.erase_eq_filter hl]
    apply List.filter_congr
    intro p _
    by_cases hp : p = x
    · subst hp; simp
    · simp [hp, bne_iff_ne]
  rw [hfe, List.length_erase_of_mem hx]
  have hpos : 0 < l.length := List.length_pos_of_mem hx
  omega

/-- C5: unregister fails with the not-found error when no activity of that
name exists; fails with the not-signed-up error, leaving the store unchanged,
when the pair is absent; and on success removes exactly that one pair — one
membership row disappears and a pair is enrolled afterwards iff it was
enrolled before and is not the removed one.  The hypotheses are the store's
uniqueness constraints (activity names, activity ids, membership rows). -/
theorem C5_unregister_cases (db : DB) (a e : String)
    (hNames : (db.activities.map Activity.name).Nodup)
    (hIds : (db.activities.map Activity.id).Nodup)
    (hPart : db.participants.Nodup) :
    (¬ activityExists db a →
      ActivityRepository.unregister db a e =
        (db, .error (.keyError "Activity not found"))) ∧
    (activityExists db a → ¬ enrolled db a e →
      ActivityRepository.unregister db a e =
        (db, .error (.valueError "Student is not signed up for this activity"))) ∧
    (enrolled db a e →
      (ActivityRepository.unregister db a e).2 = .ok () ∧
      (ActivityRepository.unregister db a e).1.activities = db.activities ∧
      (ActivityRepository.unregister db a e).1.participants.length + 1 =
        db.participants.length ∧
      ∀ a2 e2, enrolled (ActivityRepository.unregister db a e).1 a2 e2 ↔
        (enrolled db a2 e2 ∧ ¬(a2 = a ∧ e2 = e))) := by
  refine ⟨fun hnone => ?_, fun hex hnen => ?_, fun hen => ?_⟩
  · have hfind : db.activities.find? (fun x => x.name == a) = none :=
      List.find?_eq_none.mpr (fun x hx => by
        simp only [beq_iff_eq]
        exact fun h => hnone ⟨x, hx, h⟩)
    simp [ActivityRepository.unregister, DB.findActivity, hfind]
  · obtain ⟨act, hfind, hmem, hname⟩ := findActivity_of_exists db a hex
    have hpair : (act.id, e) ∉ db.participants := fun hp =>
      hnen ⟨act, hmem, hname, hp⟩
    simp [ActivityRepository.unregister, hfind, hpair]
  · have hex : activityExists db a := by
      obtain ⟨act2, hmem2, hname2, _⟩ := hen
      exact ⟨act2, hmem2, hname2⟩
    obtain ⟨act, hfind, hmem, hname⟩ := findActivity_of_exists db a hex
    obtain ⟨act2, hmem2, hname2, hpair2⟩ := hen
    have heq : act = act2 :=
      List.inj_on_of_nodup_map hNames hmem hmem2 (by rw [hname, hname2])
    rw [← heq] at hpair2
    have hstate : (ActivityRepository.unregister db a e).1 =
        { db with participants :=
            db.participants.filter (fun p => p ≠ (act.id, e)) } := by
      simp [ActivityRepository.unregister, hfind, hpair2]
    refine ⟨by simp [ActivityRepository.unregister, hfind, hpair2],
      by rw [hstate], ?_, ?_⟩
    · rw [hstate]
      exact filter_ne_length_of_nodup db.participants (act.id, e) hPart hpair2
    · intro a2 e2
      rw [hstate]
      simp only [enrolled]
      constructor
      · rintro ⟨act3, hmem3, hname3, hp3⟩
        have hp3m := List.mem_filter.mp hp3
        have hne : (act3.id, e2) ≠ (act.id, e) := of_decide_eq_true hp3m.2
        refine ⟨⟨act3, hmem3, hname3, hp3m.1⟩, ?_⟩
        rintro ⟨rfl, rfl⟩
        have hsame : act3 = act :=
          List.inj_on_of_nodup_map hNames hmem3 hmem (by rw [hname3, hname])
        exact hne (by rw [hsame])
      · rintro ⟨⟨act3, hmem3, hname3, hp3⟩, hnot⟩
        refine ⟨act3, hmem3, hname3, List.mem_filter.mpr ⟨hp3, ?_⟩⟩
        apply decide_eq_true
        intro heq2
        have h1 : act3.id = act.id := congrArg Prod.fst heq2
        have h2 : e2 = e := congrArg Prod.snd heq2
        have hsame : act3 = act := List.inj_on_of_nodup_map hIds hmem3 hmem h1
        exact hnot ⟨by rw [← hname3, hsame, hname], h2⟩

/-- Witness for C5: at the concrete store, all three unregister outcomes. -/
theorem C5_unregister_cases_witness :
    ActivityRepository.unregister dbChess "Art Club" "bob@x.edu" =
      (dbChess, .error (.keyError "Activity not found")) ∧
    ActivityRepository.unregister dbChess "Chess Club" "zed@x.edu" =
      (dbChess, .error (.valueError "Student is not signed up for this activity")) ∧
    (ActivityRepository.unregister dbChess "Chess Club" "bob@x.edu").2 = .ok () ∧
    (ActivityRepository.unregister dbChess "Chess Club" "bob@x.edu").1.participants.length + 1 =
      dbChess.participants.length :=
  ⟨(C5_unregister_cases dbChess "Art Club" "bob@x.edu"
      (by decide) (by decide) (by decide)).1 (by decide),
    (C5_unregister_cases dbChess "Chess Club" "zed@x.edu"
      (by decide) (by decide) (by decide)).2.1 (by decide) (by decide),
    ((C5_unregister_cases dbChess "Chess Club" "bob@x.edu"
      (by decide) (by decide) (by decide)).2.2 (by decide)).1,
    ((C5_unregister_cases dbChess "Chess Club" "bob@x.edu"
      (by decide) (by decide) (by decide)).2.2 (by decide)).2.2.1⟩

/-- The activity rows produced by seeding an empty store: AUTOINCREMENT ids
1..9 paired with the default entries in order. -/
def seededActivities : List Activity :=
  ((List.range DEFAULT_ACTIVITIES.length).zip DEFAULT_ACTIVITIES).map
    (fun pr => ⟨pr.1 + 1, pr.2.name, pr.2.description, pr.2.schedule,
      pr.2.max_participants⟩)

/-- The membership rows produced by seeding an empty store. -/
def seededParticipants : List (Nat × String) :=
  (((List.range DEFAULT_ACTIVITIES.length).zip DEFAULT_ACTIVITIES).map
    (fun pr => pr.2.participants.map (fun e => (pr.1 + 1, e)))).flatten

/-- Each seeding step inserts exactly one activity row. -/
theorem foldl_seedInsert_length (l : List SeedActivity) (db : DB) :
    (l.foldl seedInsert db).activities.length = db.activities.length + l.length := by
  induction l generalizing db with
  | nil => simp
  | cons x xs ih =>
    rw [List.foldl_cons, ih]
    simp [seedInsert]
    omega

/-- C8: seeding is guarded by emptiness and idempotent — on a non-empty
activity relation it is a no-op; on an empty store it inserts exactly the
fixed default activities with their initial participants; and a second call
after any first call changes nothing. -/
theorem C8_seed_if_empty_idempotent :
    (∀ db : DB, db.activities ≠ [] → ActivityRepository.seed_default_data db = db) ∧
    (∀ us : List User,
      ActivityRepository.seed_default_data ⟨[], [], us, 1⟩ =
        ⟨seededActivities, seededParticipants, us, 10⟩) ∧
    (∀ db : DB,
      ActivityRepository.seed_default_data (ActivityRepository.seed_default_data db) =
        ActivityRepository.seed_default_data db) := by
  have hnoop : ∀ db : DB, db.activities ≠ [] →
      ActivityRepository.seed_default_data db = db := by
    intro db h
    rw [ActivityRepository.seed_default_data, if_pos (List.length_pos.mpr h)]
  refine ⟨hnoop, fun us => rfl, fun db => ?_⟩
  by_cases h : db.activities = []
  · have h1 : ActivityRepository.seed_default_data db =
        DEFAULT_ACTIVITIES.foldl seedInsert db := by
      rw [ActivityRepository.seed_default_data, if_neg (by simp [h])]
    rw [h1]
    apply hnoop
    intro hcontra
    have hlen := foldl_seedInsert_length DEFAULT_ACTIVITIES db
    rw [hcontra] at hlen
    have h9 : DEFAULT_ACTIVITIES.length = 9 := rfl
    rw [h9] at hlen
    simp only [List.length_nil] at hlen
    omega
  · rw [hnoop db h]
    exact hnoop db h

/-- Witness for C8: seeding a non-empty store is a no-op. -/
theorem C8_seed_if_empty_idempotent_witness :
    ActivityRepository.seed_default_data dbChess = dbChess :=
  C8_seed_if_empty_idempotent.1 dbChess (by decide)

/-- C9: the activities listing is ordered — the returned names are sorted
ascending and are exactly the stored activity names, and every returned
participant list is sorted ascending by email. -/
theorem C9_get_activities_ordered (db : DB) :
    ((ActivityRepository.get_activities db).map Prod.fst).Sorted
      (fun a b => a ≤ b) ∧
    ((ActivityRepository.get_activities db).map Prod.fst).Perm
      (db.activities.map Activity.name) ∧
    ∀ pr ∈ ActivityRepository.get_activities db,
      pr.2.participants.Sorted (fun a b => a ≤ b) := by
  haveI ht : IsTotal Activity (fun a b => a.name ≤ b.name) :=
    ⟨fun a b => le_total a.name b.name⟩
  haveI htr : IsTrans Activity (fun a b => a.name ≤ b.name) :=
    ⟨fun _ _ _ h1 h2 => le_trans h1 h2⟩
  have hmapfst : (ActivityRepository.get_activities db).map Prod.fst =
      (List.insertionSort (fun a b => a.name ≤ b.name) db.activities).map
        Activity.name := by
    rw [ActivityRepository.get_activities, List.map_map]
    rfl
  refine ⟨?_, ?_, ?_⟩
  · rw [hmapfst]
    exact List.Pairwise.map Activity.name (fun _ _ h => h)
      (List.sorted_insertionSort (fun a b : Activity => a.name ≤ b.name)
        db.activities)
  · rw [hmapfst]
    exact (List.perm_insertionSort (fun a b : Activity => a.name ≤ b.name)
      db.activities).map Activity.name
  · intro pr hpr
    rw [ActivityRepository.get_activities, List.mem_map] at hpr
    obtain ⟨act, _, rfl⟩ := hpr
    haveI hts : IsTotal String (fun a b : String => a ≤ b) :=
      ⟨fun a b => le_total a b⟩
    haveI htrs : IsTrans String (fun a b : String => a ≤ b) :=
      ⟨fun _ _ _ h1 h2 => le_trans h1 h2⟩
    exact List.sorted_insertionSort (fun a b : String => a ≤ b) _
